import Mathlib

/-!
# Founder Math Lab — scoring/simulation engine, shallow embedding

A Lean 4 embedding of the pure scoring engine of `src/src/App.jsx`:
the function `computeScore(market, unit, runway)` (derived metrics, the
24-month cash-flow simulation, the rule catalog producing flags and
points, and the final clamp to [0,100]) and the module-completion
predicate `checkModuleComplete(moduleId, flags, score)`.

Currency and percentage values are embedded as rationals (`ℚ`);
month indices and points as naturals.  Flag message strings carry no
logic, so a `Flag` keeps only its `id`, `module` and `severity`.
-/

namespace FounderMathLab

/-- MarketParams: tam, samPct, somPct, horizon, targetARR. -/
structure MarketParams where
  tam : ℚ
  samPct : ℚ
  somPct : ℚ
  horizon : ℚ
  targetARR : ℚ
  deriving DecidableEq, Repr

/-- UnitParams: price, billing ('monthly' | 'annual'), grossMargin, cac, churnMonthly. -/
structure UnitParams where
  price : ℚ
  billing : String
  grossMargin : ℚ
  cac : ℚ
  churnMonthly : ℚ
  deriving DecidableEq, Repr

/-- RunwayParams: the cash/dilution parameter group. -/
structure RunwayParams where
  startingCash : ℚ
  totalMonthlyBurn : ℚ
  burnHeadcount : ℚ
  burnInfra : ℚ
  burnOps : ℚ
  monthlyRevenue : ℚ
  revenueGrowthMoM : ℚ
  fundraiseMonth : ℕ
  fundraiseAmount : ℚ
  safeCapPercent : ℚ
  optionPool : ℚ
  deriving DecidableEq, Repr

/-- Flag severity levels. -/
inductive Severity where
  | critical
  | warning
  | info
  deriving DecidableEq, Repr, BEq

/-- A diagnostic flag: stable id, owning module (1, 2 or 3), severity.
The human-readable `msg`/`detail`/`fix` strings of the source carry no
engine logic and are omitted. -/
structure Flag where
  id : String
  module : ℕ
  severity : Severity
  deriving DecidableEq, Repr, BEq

/-- DerivedMetrics as returned in `computeScore(...).derived`. -/
structure DerivedMetrics where
  sam : ℚ
  som : ℚ
  ltv : ℚ
  payback : ℚ
  ltvCac : ℚ
  avgLifespanMonths : ℚ
  runwayMonths : ℕ
  breakevenMonth : Option ℕ
  cashData : List ℚ
  founderOwnership : ℚ
  totalDilution : ℚ
  deriving DecidableEq, Repr

/-- ScoreResult: clamped score, ordered flags, derived metrics. -/
structure ScoreResult where
  score : ℕ
  flags : List Flag
  derived : DerivedMetrics
  deriving DecidableEq, Repr

/-! ## Derived-metric helpers (module 2 arithmetic of `computeScore`) -/

/-- `unit.billing === 'monthly' ? unit.price : unit.price / 12`. -/
def monthlyPrice (unit : UnitParams) : ℚ :=
  if unit.billing = "monthly" then unit.price else unit.price / 12

/-- `monthlyPrice * (unit.grossMargin / 100)`. -/
def grossRevPerMonth (unit : UnitParams) : ℚ :=
  monthlyPrice unit * (unit.grossMargin / 100)

/-! ## Rule catalog: one definition per check, in catalog order.
Each returns the points awarded and the (zero- or one-element) list of
flags pushed, exactly as in the source's if/else chains. -/

/-- Module 1, TAM size: ≥$10B→20, ≥$1B→13, else critical `tam_small`. -/
def tamCheck (tam : ℚ) : ℕ × List Flag :=
  if tam ≥ 10000000000 then (20, [])
  else if tam ≥ 1000000000 then (13, [])
  else (0, [⟨"tam_small", 1, Severity.critical⟩])

/-- Module 1, SOM % of SAM: ≤5→15, ≤10→8, else warning `som_high`. -/
def somPctCheck (somPct : ℚ) : ℕ × List Flag :=
  if somPct ≤ 5 then (15, [])
  else if somPct ≤ 10 then (8, [])
  else (0, [⟨"som_high", 1, Severity.warning⟩])

/-- Module 1, SOM absolute: ≥$100M→10, ≥$30M→5, else warning `som_abs`. -/
def somAbsCheck (som : ℚ) : ℕ × List Flag :=
  if som ≥ 100000000 then (10, [])
  else if som ≥ 30000000 then (5, [])
  else (0, [⟨"som_abs", 1, Severity.warning⟩])

/-- Module 2, LTV/CAC: ≥5→20, ≥3→12, ≥2→5, else critical `ltvcac_low`. -/
def ltvCacCheck (ltvCac : ℚ) : ℕ × List Flag :=
  if ltvCac ≥ 5 then (20, [])
  else if ltvCac ≥ 3 then (12, [])
  else if ltvCac ≥ 2 then (5, [])
  else (0, [⟨"ltvcac_low", 2, Severity.critical⟩])

/-- Module 2, payback: ≤6→15, ≤12→8, else warning `payback_long`. -/
def paybackCheck (payback : ℚ) : ℕ × List Flag :=
  if payback ≤ 6 then (15, [])
  else if payback ≤ 12 then (8, [])
  else (0, [⟨"payback_long", 2, Severity.warning⟩])

/-- Module 2, gross margin: ≥70→10, ≥60→5, else warning `margin_low`. -/
def marginCheck (grossMargin : ℚ) : ℕ × List Flag :=
  if grossMargin ≥ 70 then (10, [])
  else if grossMargin ≥ 60 then (5, [])
  else (0, [⟨"margin_low", 2, Severity.warning⟩])

/-- Module 2, churn: flag-only, warning `churn_high` when churnMonthly ≥ 5. -/
def churnCheck (churnMonthly : ℚ) : List Flag :=
  if churnMonthly ≥ 5 then [⟨"churn_high", 2, Severity.warning⟩] else []

/-- Module 3, runway tiers: ≥18→20, ≥12→10, ≥6→3, else critical `runway_critical`. -/
def runwayCheck (runwayMonths : ℕ) : ℕ × List Flag :=
  if runwayMonths ≥ 18 then (20, [])
  else if runwayMonths ≥ 12 then (10, [])
  else if runwayMonths ≥ 6 then (3, [])
  else (0, [⟨"runway_critical", 3, Severity.critical⟩])

/-- Module 3, extra flag-only check: warning `runway_short` when runway < 18. -/
def runwayShortCheck (runwayMonths : ℕ) : List Flag :=
  if runwayMonths < 18 then [⟨"runway_short", 3, Severity.warning⟩] else []

/-- Module 3, breakeven: `breakevenMonth !== null && breakevenMonth <= 24` →10,
else warning `no_breakeven`. -/
def breakevenCheck (breakevenMonth : Option ℕ) : ℕ × List Flag :=
  match breakevenMonth with
  | some b => if b ≤ 24 then (10, []) else (0, [⟨"no_breakeven", 3, Severity.warning⟩])
  | none => (0, [⟨"no_breakeven", 3, Severity.warning⟩])

/-- Module 3, dilution: ≤25→5, ≤35→0 (neutral), else warning `dilution_heavy`. -/
def dilutionCheck (totalDilution : ℚ) : ℕ × List Flag :=
  if totalDilution ≤ 25 then (5, [])
  else if totalDilution ≤ 35 then (0, [])
  else (0, [⟨"dilution_heavy", 3, Severity.warning⟩])

/-! ## Cash-flow simulator (module 3 loop of `computeScore`) -/

/-- Loop state of the 24-month simulation: mutable variables
`cash`, `rev`, `runwayMonths`, `breakevenMonth`, `cashData` of the source. -/
structure SimState where
  cash : ℚ
  rev : ℚ
  runwayMonths : ℕ
  breakevenMonth : Option ℕ
  cashData : List ℚ
  deriving DecidableEq, Repr

/-- One iteration of the `for (let m = 1; m <= 24; m++)` body. -/
def simStep (runway : RunwayParams) (s : SimState) (m : ℕ) : SimState :=
  let netBurn := runway.totalMonthlyBurn - s.rev
  let cash := s.cash - netBurn
  let cash :=
    if m = runway.fundraiseMonth ∧ runway.fundraiseAmount > 0
    then cash + runway.fundraiseAmount else cash
  let cashData := s.cashData ++ [cash]
  let runwayMonths :=
    if cash ≤ 0 ∧ s.runwayMonths = 24 then m - 1 else s.runwayMonths
  let breakevenMonth :=
    if netBurn ≤ 0 ∧ s.breakevenMonth = none then some m else s.breakevenMonth
  let rev := s.rev * (1 + runway.revenueGrowthMoM / 100)
  ⟨cash, rev, runwayMonths, breakevenMonth, cashData⟩

/-- The full 24-step simulation, from
`cash = startingCash, rev = monthlyRevenue, runwayMonths = 24,
breakevenMonth = null, cashData = [cash]`. -/
def simulate (runway : RunwayParams) : SimState :=
  (List.range' 1 24).foldl (simStep runway)
    ⟨runway.startingCash, runway.monthlyRevenue, 24, none, [runway.startingCash]⟩

/-! ## The engine -/

/-- The un-clamped point sum accumulated by `computeScore` across all
checks of the rule catalog (the value of the source's `score` variable
just before the final `Math.min(100, Math.max(0, score))`). -/
def unclampedScore (market : MarketParams) (unit : UnitParams) (runway : RunwayParams) : ℕ :=
  let sam := market.tam * (market.samPct / 100)
  let som := sam * (market.somPct / 100)
  let churnRate := unit.churnMonthly / 100
  let ltv := if churnRate > 0 then grossRevPerMonth unit / churnRate else 999999
  let payback := if grossRevPerMonth unit > 0 then unit.cac / grossRevPerMonth unit else 999
  let ltvCac := if unit.cac > 0 then ltv / unit.cac else 0
  let sim := simulate runway
  let totalDilution := runway.safeCapPercent + runway.optionPool
  (tamCheck market.tam).1 + (somPctCheck market.somPct).1 + (somAbsCheck som).1 +
    (ltvCacCheck ltvCac).1 + (paybackCheck payback).1 + (marginCheck unit.grossMargin).1 +
    (runwayCheck sim.runwayMonths).1 + (breakevenCheck sim.breakevenMonth).1 +
    (dilutionCheck totalDilution).1

/-- `computeScore(market, unit, runway)`: derived metrics, rule catalog,
24-month simulation, score clamp — the whole scoring engine. -/
def computeScore (market : MarketParams) (unit : UnitParams) (runway : RunwayParams) :
    ScoreResult :=
  let sam := market.tam * (market.samPct / 100)
  let som := sam * (market.somPct / 100)
  let churnRate := unit.churnMonthly / 100
  let ltv := if churnRate > 0 then grossRevPerMonth unit / churnRate else 999999
  let payback := if grossRevPerMonth unit > 0 then unit.cac / grossRevPerMonth unit else 999
  let ltvCac := if unit.cac > 0 then ltv / unit.cac else 0
  let avgLifespanMonths := if churnRate > 0 then 1 / churnRate else 999
  let sim := simulate runway
  let totalDilution := runway.safeCapPercent + runway.optionPool
  let founderOwnership := max 0 (100 - totalDilution)
  let rawScore := unclampedScore market unit runway
  let flags :=
    (tamCheck market.tam).2 ++ (somPctCheck market.somPct).2 ++ (somAbsCheck som).2 ++
      (ltvCacCheck ltvCac).2 ++ (paybackCheck payback).2 ++ (marginCheck unit.grossMargin).2 ++
      churnCheck unit.churnMonthly ++
      (runwayCheck sim.runwayMonths).2 ++ runwayShortCheck sim.runwayMonths ++
      (breakevenCheck sim.breakevenMonth).2 ++ (dilutionCheck totalDilution).2
  { score := min 100 (max 0 rawScore)
    flags := flags
    derived :=
      { sam := sam, som := som, ltv := ltv, payback := payback, ltvCac := ltvCac
        avgLifespanMonths := avgLifespanMonths
        runwayMonths := sim.runwayMonths, breakevenMonth := sim.breakevenMonth
        cashData := sim.cashData
        founderOwnership := founderOwnership, totalDilution := totalDilution } }

/-- `checkModuleComplete(moduleId, flags, score)`: no critical flag in the
module's flags, and global score ≥ 65. -/
def checkModuleComplete (moduleId : ℕ) (flags : List Flag) (score : ℕ) : Bool :=
  let moduleFlags := flags.filter (fun f => f.module == moduleId)
  let hasCritical := moduleFlags.any (fun f => f.severity == Severity.critical)
  !hasCritical && score ≥ 65

/-! ## Reference fold for the cash-flow simulator (C2)

The claim's reference description of the loop tracks "runwayMonths has
not yet been set" explicitly (a first-crossing flag) instead of the
source's `runwayMonths === 24` sentinel test.  `SimSpecState` and
`simSpecStep` follow the claim's words; the claim is settled by proving
this fold equal to `simulate`. -/

/-- Reference-fold state: like `SimState` but with an explicit
`runwaySet` first-crossing flag. -/
structure SimSpecState where
  cash : ℚ
  rev : ℚ
  runwayMonths : ℕ
  runwaySet : Bool
  breakevenMonth : Option ℕ
  cashData : List ℚ
  deriving DecidableEq, Repr

/-- One step of the reference fold, per the claim's wording: net burn from
revenue at start of step, burn, fundraise after burn in the same step,
append, first-crossing runway and breakeven updates, then growth. -/
def simSpecStep (runway : RunwayParams) (s : SimSpecState) (m : ℕ) : SimSpecState :=
  let netBurn := runway.totalMonthlyBurn - s.rev
  let cash := s.cash - netBurn
  let cash :=
    if m = runway.fundraiseMonth ∧ runway.fundraiseAmount > 0
    then cash + runway.fundraiseAmount else cash
  let cashData := s.cashData ++ [cash]
  let runwayMonths :=
    if cash ≤ 0 ∧ s.runwaySet = false then m - 1 else s.runwayMonths
  let runwaySet :=
    if cash ≤ 0 ∧ s.runwaySet = false then true else s.runwaySet
  let breakevenMonth :=
    if netBurn ≤ 0 ∧ s.breakevenMonth = none then some m else s.breakevenMonth
  let rev := s.rev * (1 + runway.revenueGrowthMoM / 100)
  ⟨cash, rev, runwayMonths, runwaySet, breakevenMonth, cashData⟩

/-- The reference 24-step fold: all 24 steps, no early exit, starting
from cash = startingCash, rev = monthlyRevenue, runwayMonths = 24 (unset),
breakevenMonth = null, cashData = [startingCash]. -/
def simulateSpec (runway : RunwayParams) : SimSpecState :=
  (List.range' 1 24).foldl (simSpecStep runway)
    ⟨runway.startingCash, runway.monthlyRevenue, 24, false, none, [runway.startingCash]⟩

/-! ## Module-wise point sums (C9) -/

/-- Points awarded by the three module-1 checks (TAM size, SOM percent,
SOM absolute) on a market parameter group, with `som` computed as in
`computeScore`. -/
def module1Points (market : MarketParams) : ℕ :=
  (tamCheck market.tam).1 + (somPctCheck market.somPct).1 +
    (somAbsCheck (market.tam * (market.samPct / 100) * (market.somPct / 100))).1

/-- Points awarded by the module-2 and module-3 checks. -/
def module23Points (unit : UnitParams) (runway : RunwayParams) : ℕ :=
  let churnRate := unit.churnMonthly / 100
  let ltv := if churnRate > 0 then grossRevPerMonth unit / churnRate else 999999
  let payback := if grossRevPerMonth unit > 0 then unit.cac / grossRevPerMonth unit else 999
  let ltvCac := if unit.cac > 0 then ltv / unit.cac else 0
  let sim := simulate runway
  let totalDilution := runway.safeCapPercent + runway.optionPool
  (ltvCacCheck ltvCac).1 + (paybackCheck payback).1 + (marginCheck unit.grossMargin).1 +
    (runwayCheck sim.runwayMonths).1 + (breakevenCheck sim.breakevenMonth).1 +
    (dilutionCheck totalDilution).1

/-- Modelled from the spec (§4.1), for the refinement claim about
billing: `monthlyPrice = billing==annual ? price/12 : price`. -/
def monthlyPriceSpec (unit : UnitParams) : ℚ :=
  if unit.billing = "annual" then unit.price / 12 else unit.price

/-- The default parameter state of the app (`DEFAULTS` in the source). -/
def defaultMarket : MarketParams :=
  ⟨5000000000, 15, 8, 5, 10000000⟩

/-- Default unit-economics parameters. -/
def defaultUnit : UnitParams :=
  ⟨99, "monthly", 55, 800, 5⟩

/-- Default runway parameters. -/
def defaultRunway : RunwayParams :=
  ⟨1500000, 120000, 60, 20, 20, 15000, 8, 0, 0, 20, 15⟩

/-! ## Helper lemmas about the simulation fold -/

/-- Each step appends exactly one entry to `cashData`. -/
lemma foldl_simStep_cashData_length (r : RunwayParams) :
    ∀ (ms : List ℕ) (s : SimState),
      ((ms.foldl (simStep r) s).cashData).length = s.cashData.length + ms.length := by
  intro ms
  induction ms with
  | nil => intro s; simp
  | cons m ms ih =>
    intro s
    simp only [List.foldl_cons, ih, List.length_cons]
    simp [simStep]
    omega

/-- `runwayMonths` never exceeds 24 along the fold, provided every month
index processed is at most 24. -/
lemma foldl_simStep_runway_le (r : RunwayParams) :
    ∀ (ms : List ℕ) (s : SimState), (∀ m ∈ ms, m ≤ 24) → s.runwayMonths ≤ 24 →
      (ms.foldl (simStep r) s).runwayMonths ≤ 24 := by
  intro ms
  induction ms with
  | nil => intro s _ hs; simpa using hs
  | cons m ms ih =>
    intro s hm hs
    simp only [List.foldl_cons]
    refine ih _ (fun x hx => hm x (List.mem_cons_of_mem m hx)) ?_
    have hm24 : m ≤ 24 := hm m (List.mem_cons_self m ms)
    simp only [simStep]
    split_ifs <;> omega

/-- `breakevenMonth`, once set, is a processed month index; along the
fold it stays at most 24 when all month indices are. -/
lemma foldl_simStep_breakeven_le (r : RunwayParams) :
    ∀ (ms : List ℕ) (s : SimState), (∀ m ∈ ms, m ≤ 24) →
      (∀ b, s.breakevenMonth = some b → b ≤ 24) →
      ∀ b, (ms.foldl (simStep r) s).breakevenMonth = some b → b ≤ 24 := by
  intro ms
  induction ms with
  | nil => intro s _ hs; simpa using hs
  | cons m ms ih =>
    intro s hm hs
    simp only [List.foldl_cons]
    refine ih _ (fun x hx => hm x (List.mem_cons_of_mem m hx)) ?_
    have hm24 : m ≤ 24 := hm m (List.mem_cons_self m ms)
    intro b hb
    simp only [simStep] at hb
    split at hb
    · injection hb with hb; omega
    · exact hs b hb

/-- Every month index fed to the fold by `simulate` is at most 24. -/
lemma mem_range'_le_24 : ∀ m ∈ List.range' 1 24, m ≤ 24 := by
  intro m hm
  have := List.mem_range'_1.mp hm
  omega

/-- `simulate` and the reference fold agree, step by step: the linking
invariant between `SimState` and `SimSpecState`. -/
def SimAgrees (s : SimState) (t : SimSpecState) : Prop :=
  s.cash = t.cash ∧ s.rev = t.rev ∧ s.cashData = t.cashData ∧
    s.breakevenMonth = t.breakevenMonth ∧ s.runwayMonths = t.runwayMonths ∧
    (s.runwayMonths = 24 ↔ t.runwaySet = false)

/-- One step preserves the linking invariant (for month indices ≤ 24). -/
lemma simStep_agrees (r : RunwayParams) (m : ℕ) (hm : m ≤ 24)
    (s : SimState) (t : SimSpecState) (h : SimAgrees s t) :
    SimAgrees (simStep r s m) (simSpecStep r t m) := by
  rcases s with ⟨sc, sr, sm, sb, sd⟩
  rcases t with ⟨tc, tr, tm, tset, tb, td⟩
  obtain ⟨h1, h2, h3, h4, h5, h6⟩ := h
  simp only at h1 h2 h3 h4 h5 h6
  subst h1; subst h2; subst h3; subst h4; subst h5
  cases tset with
  | false =>
    have htm : sm = 24 := h6.mpr rfl
    subst htm
    refine ⟨rfl, rfl, rfl, rfl, ?_, ?_⟩
    · simp [simStep, simSpecStep]
    · simp only [simStep, simSpecStep, eq_self_iff_true, and_true]
      split_ifs <;> simp_all <;> omega
  | true =>
    have htm : sm ≠ 24 := fun hc => by simpa using h6.mp hc
    refine ⟨rfl, rfl, rfl, rfl, ?_, ?_⟩
    · simp [simStep, simSpecStep, htm]
    · simp [simStep, simSpecStep, htm]

/-- The linking invariant is preserved by the whole fold. -/
lemma foldl_agrees (r : RunwayParams) :
    ∀ (ms : List ℕ), (∀ m ∈ ms, m ≤ 24) →
      ∀ (s : SimState) (t : SimSpecState), SimAgrees s t →
        SimAgrees (ms.foldl (simStep r) s) (ms.foldl (simSpecStep r) t) := by
  intro ms
  induction ms with
  | nil => intro _ s t h; simpa using h
  | cons m ms ih =>
    intro hm s t h
    simp only [List.foldl_cons]
    exact ih (fun x hx => hm x (List.mem_cons_of_mem m hx))
      _ _ (simStep_agrees r m (hm m (List.mem_cons_self m ms)) s t h)

/-- `simulate` agrees with the reference fold on every component. -/
lemma simulate_agrees (r : RunwayParams) : SimAgrees (simulate r) (simulateSpec r) := by
  exact foldl_agrees r _ mem_range'_le_24 _ _
    ⟨rfl, rfl, rfl, rfl, rfl, by simp⟩

/-- `simulate` never reports more than 24 months of runway. -/
lemma simulate_runway_le (r : RunwayParams) : (simulate r).runwayMonths ≤ 24 :=
  foldl_simStep_runway_le r _ _ mem_range'_le_24 (by simp)

/-- A breakeven month reported by `simulate` is at most 24. -/
lemma simulate_breakeven_le (r : RunwayParams) :
    ∀ b, (simulate r).breakevenMonth = some b → b ≤ 24 :=
  foldl_simStep_breakeven_le r _ _ mem_range'_le_24 (by simp)

/-- `simulate` records exactly 25 cash values (month 0 plus 24 steps). -/
lemma simulate_cashData_length (r : RunwayParams) : (simulate r).cashData.length = 25 := by
  have h := foldl_simStep_cashData_length r (List.range' 1 24)
    ⟨r.startingCash, r.monthlyRevenue, 24, none, [r.startingCash]⟩
  simpa [simulate] using h

/-! ## Helper lemmas about the rule catalog -/

lemma mem_tamCheck {t : ℚ} {f : Flag} (h : f ∈ (tamCheck t).2) :
    f = ⟨"tam_small", 1, Severity.critical⟩ := by
  unfold tamCheck at h; split_ifs at h <;> simp_all

lemma tamCheck_nil_iff (t : ℚ) : (tamCheck t).2 = [] ↔ 1000000000 ≤ t := by
  unfold tamCheck
  split_ifs with h1 h2 <;> simp <;> linarith

lemma mem_somPctCheck {p : ℚ} {f : Flag} (h : f ∈ (somPctCheck p).2) :
    f = ⟨"som_high", 1, Severity.warning⟩ := by
  unfold somPctCheck at h; split_ifs at h <;> simp_all

lemma somPctCheck_nil_iff (p : ℚ) : (somPctCheck p).2 = [] ↔ p ≤ 10 := by
  unfold somPctCheck
  split_ifs with h1 h2 <;> simp <;> linarith

lemma mem_somAbsCheck {x : ℚ} {f : Flag} (h : f ∈ (somAbsCheck x).2) :
    f = ⟨"som_abs", 1, Severity.warning⟩ := by
  unfold somAbsCheck at h; split_ifs at h <;> simp_all

lemma somAbsCheck_nil_iff (x : ℚ) : (somAbsCheck x).2 = [] ↔ 30000000 ≤ x := by
  unfold somAbsCheck
  split_ifs with h1 h2 <;> simp <;> linarith

lemma mem_ltvCacCheck {x : ℚ} {f : Flag} (h : f ∈ (ltvCacCheck x).2) :
    f = ⟨"ltvcac_low", 2, Severity.critical⟩ := by
  unfold ltvCacCheck at h; split_ifs at h <;> simp_all

lemma ltvCacCheck_nil_iff (x : ℚ) : (ltvCacCheck x).2 = [] ↔ 2 ≤ x := by
  unfold ltvCacCheck
  split_ifs with h1 h2 h3 <;> simp <;> linarith

lemma mem_paybackCheck {x : ℚ} {f : Flag} (h : f ∈ (paybackCheck x).2) :
    f = ⟨"payback_long", 2, Severity.warning⟩ := by
  unfold paybackCheck at h; split_ifs at h <;> simp_all

lemma paybackCheck_nil_iff (x : ℚ) : (paybackCheck x).2 = [] ↔ x ≤ 12 := by
  unfold paybackCheck
  split_ifs with h1 h2 <;> simp <;> linarith

lemma mem_marginCheck {x : ℚ} {f : Flag} (h : f ∈ (marginCheck x).2) :
    f = ⟨"margin_low", 2, Severity.warning⟩ := by
  unfold marginCheck at h; split_ifs at h <;> simp_all

lemma marginCheck_nil_iff (x : ℚ) : (marginCheck x).2 = [] ↔ 60 ≤ x := by
  unfold marginCheck
  split_ifs with h1 h2 <;> simp <;> linarith

lemma mem_churnCheck {x : ℚ} {f : Flag} (h : f ∈ churnCheck x) :
    f = ⟨"churn_high", 2, Severity.warning⟩ := by
  unfold churnCheck at h; split_ifs at h <;> simp_all

lemma churnCheck_nil_iff (x : ℚ) : churnCheck x = [] ↔ x < 5 := by
  unfold churnCheck
  split_ifs with h1 <;> simp <;> linarith

lemma mem_runwayCheck {n : ℕ} {f : Flag} (h : f ∈ (runwayCheck n).2) :
    f = ⟨"runway_critical", 3, Severity.critical⟩ := by
  unfold runwayCheck at h; split_ifs at h <;> simp_all

lemma runwayCheck_nil_iff (n : ℕ) : (runwayCheck n).2 = [] ↔ 6 ≤ n := by
  unfold runwayCheck
  split_ifs with h1 h2 h3 <;> simp <;> omega

lemma mem_runwayShortCheck {n : ℕ} {f : Flag} (h : f ∈ runwayShortCheck n) :
    f = ⟨"runway_short", 3, Severity.warning⟩ := by
  unfold runwayShortCheck at h; split_ifs at h <;> simp_all

lemma runwayShortCheck_nil_iff (n : ℕ) : runwayShortCheck n = [] ↔ 18 ≤ n := by
  unfold runwayShortCheck
  split_ifs with h1 <;> simp <;> omega

lemma mem_breakevenCheck {b : Option ℕ} {f : Flag} (h : f ∈ (breakevenCheck b).2) :
    f = ⟨"no_breakeven", 3, Severity.warning⟩ := by
  rcases b with _ | b
  · simp_all [breakevenCheck]
  · simp only [breakevenCheck] at h
    split_ifs at h <;> simp_all

lemma breakevenCheck_nil_iff (b : Option ℕ) :
    (breakevenCheck b).2 = [] ↔ ∃ x, b = some x ∧ x ≤ 24 := by
  rcases b with _ | b
  · simp [breakevenCheck]
  · simp only [breakevenCheck]
    split_ifs with h1 <;> simp_all

lemma mem_dilutionCheck {x : ℚ} {f : Flag} (h : f ∈ (dilutionCheck x).2) :
    f = ⟨"dilution_heavy", 3, Severity.warning⟩ := by
  unfold dilutionCheck at h; split_ifs at h <;> simp_all

lemma dilutionCheck_nil_iff (x : ℚ) : (dilutionCheck x).2 = [] ↔ x ≤ 35 := by
  unfold dilutionCheck
  split_ifs with h1 h2 <;> simp <;> linarith

/-! ## Point bounds and monotonicity of check tiers -/

lemma tamCheck_fst_le (t : ℚ) : (tamCheck t).1 ≤ 20 := by
  unfold tamCheck; split_ifs <;> simp

lemma somPctCheck_fst_le (p : ℚ) : (somPctCheck p).1 ≤ 15 := by
  unfold somPctCheck; split_ifs <;> simp

lemma somAbsCheck_fst_le (x : ℚ) : (somAbsCheck x).1 ≤ 10 := by
  unfold somAbsCheck; split_ifs <;> simp

lemma ltvCacCheck_fst_le (x : ℚ) : (ltvCacCheck x).1 ≤ 20 := by
  unfold ltvCacCheck; split_ifs <;> simp

lemma paybackCheck_fst_le (x : ℚ) : (paybackCheck x).1 ≤ 15 := by
  unfold paybackCheck; split_ifs <;> simp

lemma marginCheck_fst_le (x : ℚ) : (marginCheck x).1 ≤ 10 := by
  unfold marginCheck; split_ifs <;> simp

lemma runwayCheck_fst_le (n : ℕ) : (runwayCheck n).1 ≤ 20 := by
  unfold runwayCheck; split_ifs <;> simp

lemma breakevenCheck_fst_le (b : Option ℕ) : (breakevenCheck b).1 ≤ 10 := by
  rcases b with _ | b
  · simp [breakevenCheck]
  · simp only [breakevenCheck]
    split_ifs <;> simp

lemma dilutionCheck_fst_le (x : ℚ) : (dilutionCheck x).1 ≤ 5 := by
  unfold dilutionCheck; split_ifs <;> simp

lemma tamCheck_fst_mono {t t' : ℚ} (h : t ≤ t') : (tamCheck t).1 ≤ (tamCheck t').1 := by
  unfold tamCheck
  split_ifs <;> first | omega | linarith

lemma somAbsCheck_fst_mono {x x' : ℚ} (h : x ≤ x') :
    (somAbsCheck x).1 ≤ (somAbsCheck x').1 := by
  unfold somAbsCheck
  split_ifs <;> first | omega | linarith

/-! ## Per-check characterizations of "no flag of this module" -/

lemma tamCheck_forall_ne (t : ℚ) :
    (∀ f ∈ (tamCheck t).2, f.module ≠ 1) ↔ 1000000000 ≤ t := by
  unfold tamCheck; split_ifs <;> simp <;> linarith

lemma somPctCheck_forall_ne (p : ℚ) :
    (∀ f ∈ (somPctCheck p).2, f.module ≠ 1) ↔ p ≤ 10 := by
  unfold somPctCheck; split_ifs <;> simp <;> linarith

lemma somAbsCheck_forall_ne (x : ℚ) :
    (∀ f ∈ (somAbsCheck x).2, f.module ≠ 1) ↔ 30000000 ≤ x := by
  unfold somAbsCheck; split_ifs <;> simp <;> linarith

lemma ltvCacCheck_forall_ne (x : ℚ) :
    (∀ f ∈ (ltvCacCheck x).2, f.module ≠ 2) ↔ 2 ≤ x := by
  unfold ltvCacCheck; split_ifs <;> simp <;> linarith

lemma paybackCheck_forall_ne (x : ℚ) :
    (∀ f ∈ (paybackCheck x).2, f.module ≠ 2) ↔ x ≤ 12 := by
  unfold paybackCheck; split_ifs <;> simp <;> linarith

lemma marginCheck_forall_ne (x : ℚ) :
    (∀ f ∈ (marginCheck x).2, f.module ≠ 2) ↔ 60 ≤ x := by
  unfold marginCheck; split_ifs <;> simp <;> linarith

lemma churnCheck_forall_ne (x : ℚ) :
    (∀ f ∈ churnCheck x, f.module ≠ 2) ↔ x < 5 := by
  unfold churnCheck; split_ifs <;> simp <;> linarith

lemma runwayCheck_forall_ne (n : ℕ) :
    (∀ f ∈ (runwayCheck n).2, f.module ≠ 3) ↔ 6 ≤ n := by
  unfold runwayCheck; split_ifs <;> simp <;> omega

lemma runwayShortCheck_forall_ne (n : ℕ) :
    (∀ f ∈ runwayShortCheck n, f.module ≠ 3) ↔ 18 ≤ n := by
  unfold runwayShortCheck; split_ifs <;> simp <;> omega

lemma breakevenCheck_forall_ne (b : Option ℕ) :
    (∀ f ∈ (breakevenCheck b).2, f.module ≠ 3) ↔ ∃ x, b = some x ∧ x ≤ 24 := by
  rcases b with _ | b
  · simp [breakevenCheck]
  · simp only [breakevenCheck]
    split_ifs with h <;> simp_all

lemma dilutionCheck_forall_ne (x : ℚ) :
    (∀ f ∈ (dilutionCheck x).2, f.module ≠ 3) ↔ x ≤ 35 := by
  unfold dilutionCheck; split_ifs <;> simp <;> linarith

/-! ## Module-wise "flags empty" characterizations of `computeScore` -/

lemma noFlags_module1_iff (market : MarketParams) (u : UnitParams) (r : RunwayParams) :
    (∀ f ∈ (computeScore market u r).flags, f.module ≠ 1) ↔
      (1000000000 ≤ market.tam ∧ market.somPct ≤ 10 ∧
        30000000 ≤ (computeScore market u r).derived.som) := by
  simp only [computeScore, List.forall_mem_append, and_assoc]
  constructor
  · rintro ⟨h1, h2, h3, -⟩
    exact ⟨(tamCheck_forall_ne _).mp h1, (somPctCheck_forall_ne _).mp h2,
      (somAbsCheck_forall_ne _).mp h3⟩
  · rintro ⟨h1, h2, h3⟩
    refine ⟨(tamCheck_forall_ne _).mpr h1, (somPctCheck_forall_ne _).mpr h2,
      (somAbsCheck_forall_ne _).mpr h3, ?_, ?_, ?_, ?_, ?_, ?_, ?_, ?_⟩
    · exact fun f hf => by simp [mem_ltvCacCheck hf]
    · exact fun f hf => by simp [mem_paybackCheck hf]
    · exact fun f hf => by simp [mem_marginCheck hf]
    · exact fun f hf => by simp [mem_churnCheck hf]
    · exact fun f hf => by simp [mem_runwayCheck hf]
    · exact fun f hf => by simp [mem_runwayShortCheck hf]
    · exact fun f hf => by simp [mem_breakevenCheck hf]
    · exact fun f hf => by simp [mem_dilutionCheck hf]

lemma noFlags_module2_iff (market : MarketParams) (u : UnitParams) (r : RunwayParams) :
    (∀ f ∈ (computeScore market u r).flags, f.module ≠ 2) ↔
      (2 ≤ (computeScore market u r).derived.ltvCac ∧
        (computeScore market u r).derived.payback ≤ 12 ∧
        60 ≤ u.grossMargin ∧ u.churnMonthly < 5) := by
  simp only [computeScore, List.forall_mem_append, and_assoc]
  constructor
  · rintro ⟨-, -, -, h4, h5, h6, h7, -⟩
    exact ⟨(ltvCacCheck_forall_ne _).mp h4, (paybackCheck_forall_ne _).mp h5,
      (marginCheck_forall_ne _).mp h6, (churnCheck_forall_ne _).mp h7⟩
  · rintro ⟨h4, h5, h6, h7⟩
    refine ⟨?_, ?_, ?_, (ltvCacCheck_forall_ne _).mpr h4, (paybackCheck_forall_ne _).mpr h5,
      (marginCheck_forall_ne _).mpr h6, (churnCheck_forall_ne _).mpr h7, ?_, ?_, ?_, ?_⟩
    · exact fun f hf => by simp [mem_tamCheck hf]
    · exact fun f hf => by simp [mem_somPctCheck hf]
    · exact fun f hf => by simp [mem_somAbsCheck hf]
    · exact fun f hf => by simp [mem_runwayCheck hf]
    · exact fun f hf => by simp [mem_runwayShortCheck hf]
    · exact fun f hf => by simp [mem_breakevenCheck hf]
    · exact fun f hf => by simp [mem_dilutionCheck hf]

lemma noFlags_module3_iff (market : MarketParams) (u : UnitParams) (r : RunwayParams) :
    (∀ f ∈ (computeScore market u r).flags, f.module ≠ 3) ↔
      (18 ≤ (computeScore market u r).derived.runwayMonths ∧
        (computeScore market u r).derived.breakevenMonth ≠ none ∧
        (computeScore market u r).derived.totalDilution ≤ 35) := by
  simp only [computeScore, List.forall_mem_append, and_assoc]
  constructor
  · rintro ⟨-, -, -, -, -, -, -, h8, h9, h10, h11⟩
    refine ⟨(runwayShortCheck_forall_ne _).mp h9, ?_, (dilutionCheck_forall_ne _).mp h11⟩
    obtain ⟨x, hx, -⟩ := (breakevenCheck_forall_ne _).mp h10
    simp [hx]
  · rintro ⟨h18, hbe, hdil⟩
    obtain ⟨b, hb⟩ := Option.ne_none_iff_exists'.mp hbe
    have hb24 := simulate_breakeven_le r b hb
    refine ⟨?_, ?_, ?_, ?_, ?_, ?_, ?_, (runwayCheck_forall_ne _).mpr (by omega),
      (runwayShortCheck_forall_ne _).mpr h18,
      (breakevenCheck_forall_ne _).mpr ⟨b, hb, hb24⟩, (dilutionCheck_forall_ne _).mpr hdil⟩
    · exact fun f hf => by simp [mem_tamCheck hf]
    · exact fun f hf => by simp [mem_somPctCheck hf]
    · exact fun f hf => by simp [mem_somAbsCheck hf]
    · exact fun f hf => by simp [mem_ltvCacCheck hf]
    · exact fun f hf => by simp [mem_paybackCheck hf]
    · exact fun f hf => by simp [mem_marginCheck hf]
    · exact fun f hf => by simp [mem_churnCheck hf]

/-! ## The claims -/

/-- C1 counterexample: with every dimension in its best tier
(tam = $10B, samPct = 100, somPct = 5; LTV/CAC ≥ 5, payback ≤ 6,
margin 70; runway 24, breakeven month 1, dilution 20) the un-clamped
point sum is 125, not 100, and the final clamp lowers it to 100 — so the
catalog's maximum sum is not 100 and the clamp is not a no-op. -/
theorem c1_counterexample :
    unclampedScore ⟨10000000000, 100, 5, 5, 10000000⟩ ⟨100, "monthly", 70, 100, 1⟩
        ⟨1000000, 100, 60, 20, 20, 200, 0, 0, 0, 10, 10⟩ = 125 ∧
      (computeScore ⟨10000000000, 100, 5, 5, 10000000⟩ ⟨100, "monthly", 70, 100, 1⟩
        ⟨1000000, 100, 60, 20, 20, 200, 0, 0, 0, 10, 10⟩).score = 100 := by
  have h : unclampedScore ⟨10000000000, 100, 5, 5, 10000000⟩ ⟨100, "monthly", 70, 100, 1⟩
      ⟨1000000, 100, 60, 20, 20, 200, 0, 0, 0, 10, 10⟩ = 125 := by
    norm_num [unclampedScore, simulate, simStep, List.range', grossRevPerMonth, monthlyPrice,
      tamCheck, somPctCheck, somAbsCheck, ltvCacCheck, paybackCheck, marginCheck,
      runwayCheck, breakevenCheck, dilutionCheck, Option.some_ne_none]
  refine ⟨h, ?_⟩
  show min 100 (max 0 (unclampedScore ⟨10000000000, 100, 5, 5, 10000000⟩
    ⟨100, "monthly", 70, 100, 1⟩ ⟨1000000, 100, 60, 20, 20, 200, 0, 0, 0, 10, 10⟩)) = 100
  rw [h]
  omega

/-- C1 (amended): the sum of points awarded across all checks of the rule
catalog is at most 125 (not 100; 125 is attained when every dimension is
in its best tier, see the counterexample), the returned score is exactly
clamp(sum, 0, 100), and the score itself never exceeds 100 — so the
clamp genuinely caps sums above 100 rather than being a defensive
no-op. -/
theorem c1_theorem (market : MarketParams) (u : UnitParams) (r : RunwayParams) :
    unclampedScore market u r ≤ 125 ∧
      (computeScore market u r).score = min 100 (max 0 (unclampedScore market u r)) ∧
      (computeScore market u r).score ≤ 100 := by
  refine ⟨?_, rfl, ?_⟩
  · simp only [unclampedScore]
    refine le_trans (add_le_add (add_le_add (add_le_add (add_le_add (add_le_add (add_le_add
      (add_le_add (add_le_add (tamCheck_fst_le _) (somPctCheck_fst_le _)) (somAbsCheck_fst_le _))
      (ltvCacCheck_fst_le _)) (paybackCheck_fst_le _)) (marginCheck_fst_le _))
      (runwayCheck_fst_le _)) (breakevenCheck_fst_le _)) (dilutionCheck_fst_le _)) (by norm_num)
  · show min 100 (max 0 (unclampedScore market u r)) ≤ 100
    exact min_le_left _ _

/-- C2: the cash-flow simulator of `computeScore` equals the reference
24-step fold described in the spec: same cash and revenue trajectory,
same 25-entry cashData, same first-crossing runwayMonths (default 24)
and first-occurrence breakevenMonth (default null), with revenue growth
applied after each step and no early exit. -/
theorem c2_theorem (market : MarketParams) (u : UnitParams) (r : RunwayParams) :
    (simulate r).cash = (simulateSpec r).cash ∧
      (simulate r).rev = (simulateSpec r).rev ∧
      (simulate r).cashData = (simulateSpec r).cashData ∧
      (simulate r).breakevenMonth = (simulateSpec r).breakevenMonth ∧
      (simulate r).runwayMonths = (simulateSpec r).runwayMonths ∧
      (computeScore market u r).derived.cashData = (simulateSpec r).cashData ∧
      (computeScore market u r).derived.runwayMonths = (simulateSpec r).runwayMonths ∧
      (computeScore market u r).derived.breakevenMonth = (simulateSpec r).breakevenMonth := by
  obtain ⟨h1, h2, h3, h4, h5, -⟩ := simulate_agrees r
  exact ⟨h1, h2, h3, h4, h5, h3, h5, h4⟩

/-- C3 counterexample: at the default inputs (tam = 5e9, samPct = 15,
somPct = 8) we do get som = 60,000,000 and the SOM-absolute check awards
5 points, but the flag `som_abs` is NOT present in the returned flags —
the check either awards points or flags, never both, and 60e6 ≥ 30e6 is
the point-awarding branch. -/
theorem c3_counterexample :
    (computeScore defaultMarket defaultUnit defaultRunway).derived.som = 60000000 ∧
      (somAbsCheck 60000000).1 = 5 ∧
      "som_abs" ∉ (computeScore defaultMarket defaultUnit defaultRunway).flags.map Flag.id := by
  refine ⟨?_, ?_, ?_⟩
  · norm_num [computeScore, defaultMarket]
  · norm_num [somAbsCheck]
  · norm_num [computeScore, defaultMarket, defaultUnit, defaultRunway, simulate, simStep,
      List.range', grossRevPerMonth, monthlyPrice, tamCheck, somPctCheck, somAbsCheck,
      ltvCacCheck, paybackCheck, marginCheck, churnCheck, runwayCheck, runwayShortCheck,
      breakevenCheck, dilutionCheck, Option.some_ne_none]
    decide

/-- C3 (amended): for tam = 5e9, samPct = 15, somPct = 8 and arbitrary
other fields, computeScore returns sam = 750,000,000 and
som = 60,000,000; the SOM-percent check awards 8 points and no
`som_high` flag is emitted; the SOM-absolute check awards 5 points and —
contrary to the original claim — no `som_abs` flag is emitted either. -/
theorem c3_theorem (hz tARR : ℚ) (u : UnitParams) (r : RunwayParams) :
    (computeScore ⟨5000000000, 15, 8, hz, tARR⟩ u r).derived.sam = 750000000 ∧
      (computeScore ⟨5000000000, 15, 8, hz, tARR⟩ u r).derived.som = 60000000 ∧
      (somPctCheck 8).1 = 8 ∧ (somAbsCheck 60000000).1 = 5 ∧
      "som_high" ∉ ((computeScore ⟨5000000000, 15, 8, hz, tARR⟩ u r).flags.map Flag.id) ∧
      "som_abs" ∉ ((computeScore ⟨5000000000, 15, 8, hz, tARR⟩ u r).flags.map Flag.id) := by
  have hpct : (somPctCheck (8:ℚ)).2 = [] := (somPctCheck_nil_iff _).mpr (by norm_num)
  have habs : (somAbsCheck ((5000000000:ℚ) * (15 / 100) * (8 / 100))).2 = [] :=
    (somAbsCheck_nil_iff _).mpr (by norm_num)
  refine ⟨by norm_num [computeScore], by norm_num [computeScore],
    by norm_num [somPctCheck], by norm_num [somAbsCheck], ?_, ?_⟩
  · intro hmem
    rw [List.mem_map] at hmem
    obtain ⟨f, hf, hid⟩ := hmem
    simp only [computeScore, List.mem_append, or_assoc] at hf
    rcases hf with h | h | h | h | h | h | h | h | h | h | h
    · rw [mem_tamCheck h] at hid; exact absurd hid (by decide)
    · rw [hpct] at h; exact absurd h (List.not_mem_nil f)
    · rw [mem_somAbsCheck h] at hid; exact absurd hid (by decide)
    · rw [mem_ltvCacCheck h] at hid; exact absurd hid (by decide)
    · rw [mem_paybackCheck h] at hid; exact absurd hid (by decide)
    · rw [mem_marginCheck h] at hid; exact absurd hid (by decide)
    · rw [mem_churnCheck h] at hid; exact absurd hid (by decide)
    · rw [mem_runwayCheck h] at hid; exact absurd hid (by decide)
    · rw [mem_runwayShortCheck h] at hid; exact absurd hid (by decide)
    · rw [mem_breakevenCheck h] at hid; exact absurd hid (by decide)
    · rw [mem_dilutionCheck h] at hid; exact absurd hid (by decide)
  · intro hmem
    rw [List.mem_map] at hmem
    obtain ⟨f, hf, hid⟩ := hmem
    simp only [computeScore, List.mem_append, or_assoc] at hf
    rcases hf with h | h | h | h | h | h | h | h | h | h | h
    · rw [mem_tamCheck h] at hid; exact absurd hid (by decide)
    · rw [mem_somPctCheck h] at hid; exact absurd hid (by decide)
    · rw [habs] at h; exact absurd h (List.not_mem_nil f)
    · rw [mem_ltvCacCheck h] at hid; exact absurd hid (by decide)
    · rw [mem_paybackCheck h] at hid; exact absurd hid (by decide)
    · rw [mem_marginCheck h] at hid; exact absurd hid (by decide)
    · rw [mem_churnCheck h] at hid; exact absurd hid (by decide)
    · rw [mem_runwayCheck h] at hid; exact absurd hid (by decide)
    · rw [mem_runwayShortCheck h] at hid; exact absurd hid (by decide)
    · rw [mem_breakevenCheck h] at hid; exact absurd hid (by decide)
    · rw [mem_dilutionCheck h] at hid; exact absurd hid (by decide)

/-- C4 counterexample: with startingCash = $100K and burn = $5M/month
(both within the editing surface's documented bounds) and no revenue,
cash is ≤ 0 already at month 1, so runwayMonths = 1 − 1 = 0 — outside
the claimed 1–24 range. -/
theorem c4_counterexample :
    (computeScore defaultMarket defaultUnit
      ⟨100000, 5000000, 60, 20, 20, 0, 0, 0, 0, 20, 15⟩).derived.runwayMonths = 0 := by
  show (simulate ⟨100000, 5000000, 60, 20, 20, 0, 0, 0, 0, 20, 15⟩).runwayMonths = 0
  norm_num [simulate, simStep, List.range']

/-- C4 (amended): runwayMonths is a natural number at most 24; it can be
0 (cash depleted in the first simulated month), so the true range is
0–24, not 1–24. -/
theorem c4_theorem (market : MarketParams) (u : UnitParams) (r : RunwayParams) :
    (computeScore market u r).derived.runwayMonths ≤ 24 :=
  simulate_runway_le r

/-- C5: cashData always has exactly 25 entries, and changing the market
group's horizon field (to any value) leaves cashData unchanged — horizon
never influences the cash simulation. -/
theorem c5_theorem (market : MarketParams) (u : UnitParams) (r : RunwayParams) (h : ℚ) :
    (computeScore market u r).derived.cashData.length = 25 ∧
      (computeScore { market with horizon := h } u r).derived.cashData
        = (computeScore market u r).derived.cashData :=
  ⟨simulate_cashData_length r, rfl⟩

/-- C6: the division hazards are guarded by exact sentinels:
churnMonthly = 0 gives ltv = 999999 and avgLifespanMonths = 999, and
grossRevPerMonth ≤ 0 gives payback = 999. (In this rational embedding the
guarded branches make every metric a total rational value; the float
values Infinity/NaN have no counterpart and cannot arise.) -/
theorem c6_theorem (market : MarketParams) (u : UnitParams) (r : RunwayParams) :
    (u.churnMonthly = 0 →
      (computeScore market u r).derived.ltv = 999999 ∧
        (computeScore market u r).derived.avgLifespanMonths = 999) ∧
      (grossRevPerMonth u ≤ 0 → (computeScore market u r).derived.payback = 999) := by
  constructor
  · intro hc
    constructor <;> simp [computeScore, hc]
  · intro hg
    have hng : ¬ grossRevPerMonth u > 0 := not_lt.mpr hg
    simp [computeScore, hng]

/-- C6 witness: a unit group with churnMonthly = 0 and grossMargin = 0
(so grossRevPerMonth = 0) hits all three sentinels. -/
theorem c6_witness :
    (computeScore defaultMarket ⟨99, "monthly", 0, 800, 0⟩ defaultRunway).derived.ltv = 999999 ∧
      (computeScore defaultMarket ⟨99, "monthly", 0, 800, 0⟩
        defaultRunway).derived.avgLifespanMonths = 999 ∧
      (computeScore defaultMarket ⟨99, "monthly", 0, 800, 0⟩
        defaultRunway).derived.payback = 999 :=
  ⟨((c6_theorem defaultMarket ⟨99, "monthly", 0, 800, 0⟩ defaultRunway).1 rfl).1,
    ((c6_theorem defaultMarket ⟨99, "monthly", 0, 800, 0⟩ defaultRunway).1 rfl).2,
    (c6_theorem defaultMarket ⟨99, "monthly", 0, 800, 0⟩ defaultRunway).2
      (by norm_num [grossRevPerMonth, monthlyPrice])⟩

lemma severity_beq_false {a b : Severity} : (a == b) = false ↔ a ≠ b := by
  cases a <;> cases b <;> decide

/-- C7: checkModuleComplete returns true iff the flags of the given
module contain no critical flag AND the global score is ≥ 65; in
particular a module with zero flags still reads incomplete whenever the
global score is below 65. -/
theorem c7_theorem (moduleId : ℕ) (flags : List Flag) (score : ℕ) :
    checkModuleComplete moduleId flags score = true ↔
      ((∀ f ∈ flags, f.module = moduleId → f.severity ≠ Severity.critical) ∧ 65 ≤ score) := by
  simp [checkModuleComplete, List.any_eq_true, List.mem_filter, severity_beq_false]

/-- C8: for each module, the returned flags contain no flag of that
module iff every one of its checks is in its passing branch: module 1
iff tam ≥ $1B, somPct ≤ 10 and som ≥ $30M; module 2 iff ltvCac ≥ 2,
payback ≤ 12, grossMargin ≥ 60 and churnMonthly < 5; module 3 iff
runwayMonths ≥ 18, breakevenMonth is non-null and totalDilution ≤ 35. -/
theorem c8_theorem (market : MarketParams) (u : UnitParams) (r : RunwayParams) :
    ((∀ f ∈ (computeScore market u r).flags, f.module ≠ 1) ↔
      (1000000000 ≤ market.tam ∧ market.somPct ≤ 10 ∧
        30000000 ≤ (computeScore market u r).derived.som)) ∧
    ((∀ f ∈ (computeScore market u r).flags, f.module ≠ 2) ↔
      (2 ≤ (computeScore market u r).derived.ltvCac ∧
        (computeScore market u r).derived.payback ≤ 12 ∧
        60 ≤ u.grossMargin ∧ u.churnMonthly < 5)) ∧
    ((∀ f ∈ (computeScore market u r).flags, f.module ≠ 3) ↔
      (18 ≤ (computeScore market u r).derived.runwayMonths ∧
        (computeScore market u r).derived.breakevenMonth ≠ none ∧
        (computeScore market u r).derived.totalDilution ≤ 35)) :=
  ⟨noFlags_module1_iff market u r, noFlags_module2_iff market u r, noFlags_module3_iff market u r⟩

/-- C9: holding all else fixed, increasing tam never decreases the
module-1 score contribution (tam tiers and SOM-absolute tiers are
non-decreasing in tam when samPct, somPct are in their 0–100 domains);
the un-clamped total decomposes as module-1 points plus the points of
modules 2 and 3, which do not depend on the market group. -/
theorem c9_theorem (tam tam' samPct somPct hz tARR : ℚ) (u : UnitParams) (r : RunwayParams)
    (h0 : 0 ≤ samPct) (h1 : samPct ≤ 100) (h2 : 0 ≤ somPct) (h3 : somPct ≤ 100)
    (ht : tam ≤ tam') :
    module1Points ⟨tam, samPct, somPct, hz, tARR⟩ ≤
        module1Points ⟨tam', samPct, somPct, hz, tARR⟩ ∧
      unclampedScore ⟨tam, samPct, somPct, hz, tARR⟩ u r
        = module1Points ⟨tam, samPct, somPct, hz, tARR⟩ + module23Points u r := by
  constructor
  · simp only [module1Points]
    have hsom : tam * (samPct / 100) * (somPct / 100) ≤ tam' * (samPct / 100) * (somPct / 100) := by
      have hs : (0:ℚ) ≤ samPct / 100 := div_nonneg h0 (by norm_num)
      have ho : (0:ℚ) ≤ somPct / 100 := div_nonneg h2 (by norm_num)
      exact mul_le_mul_of_nonneg_right (mul_le_mul_of_nonneg_right ht hs) ho
    exact add_le_add (add_le_add (tamCheck_fst_mono ht) le_rfl) (somAbsCheck_fst_mono hsom)
  · simp only [unclampedScore, module1Points, module23Points]
    omega

/-- C9 witness: increasing tam from $1B to $10B (samPct = 15, somPct = 8)
does not decrease the module-1 contribution. -/
theorem c9_witness :
    module1Points ⟨1000000000, 15, 8, 5, 10000000⟩ ≤
      module1Points ⟨10000000000, 15, 8, 5, 10000000⟩ :=
  (c9_theorem 1000000000 10000000000 15 8 5 10000000 defaultUnit defaultRunway
    (by norm_num) (by norm_num) (by norm_num) (by norm_num) (by norm_num)).1

/-- C10: monthlyPrice equals price exactly when billing = 'monthly'; any
other billing value (also outside the documented domain) yields
price/12; the code's formula agrees with the spec's
`billing==annual ? price/12 : price` on the two documented values, and
disagrees outside them (billing = 'weekly', price = 12: code gives 1,
spec formula gives 12). -/
theorem c10_theorem (u : UnitParams) :
    (u.billing = "monthly" → monthlyPrice u = u.price) ∧
      (u.billing ≠ "monthly" → monthlyPrice u = u.price / 12) ∧
      ((u.billing = "monthly" ∨ u.billing = "annual") → monthlyPrice u = monthlyPriceSpec u) ∧
      monthlyPrice ⟨12, "weekly", 55, 800, 5⟩ = 1 ∧
      monthlyPriceSpec ⟨12, "weekly", 55, 800, 5⟩ = 12 := by
  refine ⟨?_, ?_, ?_, ?_, ?_⟩
  · intro h; simp [monthlyPrice, h]
  · intro h; simp [monthlyPrice, h]
  · rintro (h | h) <;>
      simp [monthlyPrice, monthlyPriceSpec, h,
        (by decide : ("monthly":String) ≠ "annual"), (by decide : ("annual":String) ≠ "monthly")]
  · show (if ("weekly":String) = "monthly" then (12:ℚ) else 12 / 12) = 1
    rw [if_neg (by decide)]; norm_num
  · show (if ("weekly":String) = "annual" then (12:ℚ) / 12 else 12) = 12
    rw [if_neg (by decide)]

/-- C10 witness: the monthly branch at billing = 'monthly', the /12
branch at billing = 'weekly', and spec agreement at billing = 'annual'. -/
theorem c10_witness :
    monthlyPrice ⟨99, "monthly", 55, 800, 5⟩ = 99 ∧
      monthlyPrice ⟨99, "weekly", 55, 800, 5⟩ = 99 / 12 ∧
      monthlyPrice ⟨99, "annual", 55, 800, 5⟩ = monthlyPriceSpec ⟨99, "annual", 55, 800, 5⟩ :=
  ⟨(c10_theorem ⟨99, "monthly", 55, 800, 5⟩).1 rfl,
    (c10_theorem ⟨99, "weekly", 55, 800, 5⟩).2.1 (by decide),
    (c10_theorem ⟨99, "annual", 55, 800, 5⟩).2.2.1 (Or.inr rfl)⟩

end FounderMathLab
